import Mathlib

/-!
# Verification of dana-team/provider-dns-v2

A shallow embedding of the credential-to-Terraform-configuration shim of the
provider (`internal/clients/dns-v2.go`), of the external-name resource list
builder (`config` package, `resourceList`), and of the generated cluster
controller registration list (`internal/controller/cluster/zz_setup.go`),
together with theorems settling the specification claims about them.

Go `map[string]string` is modelled as an association list with first-match
lookup; Go `map[string]any` values written by this code are either strings or
lists of nested blocks, modelled by the inductive `ConfigValue`.  Map writes
(`m[k] = v`) are modelled by `mapInsert`, which replaces the binding of an
existing key and otherwise appends.
-/

namespace DNSv2

/-- A Go `map[string]string` (the flat credential map decoded from JSON). -/
abbrev Creds := List (String × String)

/-- Values stored into the `map[string]any` configuration maps by this code:
plain strings (`config[k] = v` with `v` a string), or a `[]any` holding nested
configuration blocks (`config[gssapi] = []any{authConfig}`). -/
inductive ConfigValue where
  | str : String → ConfigValue
  | blocks : List (List (String × ConfigValue)) → ConfigValue
deriving Repr

/-- A Go `map[string]any` configuration map. -/
abbrev AnyMap := List (String × ConfigValue)

/-- `v, ok := creds[k]`: first-match lookup in the credential map. -/
def credLookup : Creds → String → Option String
  | [], _ => none
  | (k', v) :: rest, k => if k' = k then some v else credLookup rest k

/-- `config[k] = v` on a Go map: replace the binding of `k` if present,
otherwise add it. -/
def mapInsert : AnyMap → String → ConfigValue → AnyMap
  | [], k, v => [(k, v)]
  | (k', v') :: rest, k, v =>
      if k' = k then (k, v) :: rest else (k', v') :: mapInsert rest k v

/-- Lookup in a configuration map. -/
def mapLookup : AnyMap → String → Option ConfigValue
  | [], _ => none
  | (k', v) :: rest, k => if k' = k then some v else mapLookup rest k

/-- The Go idiom `if v, ok := creds[k]; ok { config[k] = v }` shared by all the
config builders in `dns-v2.go`. -/
def setIfPresent (creds : Creds) (config : AnyMap) (k : String) : AnyMap :=
  match credLookup creds k with
  | some v => mapInsert config k (ConfigValue.str v)
  | none => config

/-- `mergeMaps` merges all keys from map `b` into map `a`
(`for k, v := range b { a[k] = v }`). -/
def mergeMaps (a b : AnyMap) : AnyMap :=
  b.foldl (fun acc kv => mapInsert acc kv.1 kv.2) a

-- The string constants of `internal/clients/dns-v2.go`.

def errExtractCredentials : String := "cannot extract credentials"
def errUnmarshalCredentials : String := "cannot unmarshal dns-v2 credentials as JSON"

def keyRFC : String := "rfc"
def keyServer : String := "server"
def update : String := "update"
def keyPort : String := "port"
def keyRetries : String := "retries"
def keyTimeout : String := "timeout"
def keyTransport : String := "transport"

def gsstsigRFC : String := "3645"
def gssapi : String := "gssapi"
def keyTab : String := "keytab"
def keyPassword : String := "password"
def keyRealm : String := "realm"
def keyUsername : String := "username"

def keyBasedTransactionRFC : String := "2845"
def transactionKeyAlgorithm : String := "key_algorithm"
def transcationKeyName : String := "key_name"
def transactionKeySecret : String := "key_secret"

/-- `buildGSSTSIGAuthConfig` builds the configuration for GSS-TSIG
authentication (RFC 3645). -/
def buildGSSTSIGAuthConfig (creds : Creds) : AnyMap :=
  let config : AnyMap := []
  let config := setIfPresent creds config keyRealm
  let config := setIfPresent creds config keyUsername
  let config := setIfPresent creds config keyPassword
  let config := setIfPresent creds config keyTab
  config

/-- `buildSecretBasedTransactionAuthConfig` builds the configuration for
secret-based transaction authentication (RFC 2845). -/
def buildSecretBasedTransactionAuthConfig (creds : Creds) : AnyMap :=
  let config : AnyMap := []
  let config := setIfPresent creds config transcationKeyName
  let config := setIfPresent creds config transactionKeyAlgorithm
  let config := setIfPresent creds config transactionKeySecret
  config

/-- `buildOptionalConfig` builds the optional configuration for the provider. -/
def buildOptionalConfig (creds : Creds) : AnyMap :=
  let config : AnyMap := []
  let config := setIfPresent creds config keyPort
  let config := setIfPresent creds config keyRetries
  let config := setIfPresent creds config keyTimeout
  let config := setIfPresent creds config keyTransport
  config

/-- `buildAuthConfig` builds the auth configuration for the DNS provider:
copy `server` when present, branch on the `rfc` key (GSS-TSIG for "3645",
secret-key transaction auth for "2845", nothing otherwise), then merge the
optional config. The Go `switch` with two cases and no default is modelled
by the two-way `if`. -/
def buildAuthConfig (creds : Creds) : AnyMap :=
  let config : AnyMap := []
  let config := setIfPresent creds config keyServer
  let config :=
    match credLookup creds keyRFC with
    | some rfc =>
        if rfc = gsstsigRFC then
          mapInsert config gssapi (ConfigValue.blocks [buildGSSTSIGAuthConfig creds])
        else if rfc = keyBasedTransactionRFC then
          mergeMaps config (buildSecretBasedTransactionAuthConfig creds)
        else config
    | none => config
  mergeMaps config (buildOptionalConfig creds)

/-- Remove a key from a credential map (used to state the silent-fallback
claim: the result for `creds` with an unknown `rfc` equals the result for
`creds` without the `rfc` key). -/
def credErase (creds : Creds) (k : String) : Creds :=
  creds.filter (fun p => p.1 ≠ k)

/-! ## The setup function returned by TerraformSetupBuilder

`TerraformSetupBuilder(version, providerSource, providerVersion)` returns a
closure that (1) resolves the referenced ProviderConfig, (2) extracts the raw
credential bytes, (3) unmarshals them as a JSON string map, (4) stores
`{"update": []any{buildAuthConfig(creds)}}` as the provider configuration and
(5) fetches the framework provider.  Steps (1), (2), (3) and (5) are calls
into external collaborators (Kubernetes client, crossplane-runtime,
encoding/json, xpprovider); their outcomes are passed to the embedding as
oracle arguments, and the embedding reproduces the closure's control flow:
which outcome is consulted when, and what `(terraform.Setup, error)` pair is
returned in each case. -/

/-- The resolved ProviderConfig spec; its contents are only handed to the
credential extractor, so it stays abstract. -/
abbrev PCSpec := Unit

/-- The raw credential bytes returned by the extractor. -/
abbrev CredData := String

/-- The Terraform plugin-framework provider handle; only its nil-ness
matters here, so it stays abstract. -/
abbrev FrameworkProvider := Unit

/-- `terraform.ProviderRequirement` (source and version of the provider). -/
structure ProviderRequirement where
  source : String
  version : String

/-- The fields of `terraform.Setup` that this repository writes: `Version`,
`Requirement`, `Configuration` (a nil map until assigned, hence `Option`) and
`FrameworkProvider` (tracked as whether it was set). -/
structure Setup where
  version : String
  requirement : ProviderRequirement
  configuration : Option AnyMap
  frameworkProviderSet : Bool

/-- The Go zero value `terraform.Setup{}`. -/
def zeroSetup : Setup :=
  { version := ""
    requirement := { source := "", version := "" }
    configuration := none
    frameworkProviderSet := false }

/-- The body of the setup closure returned by `TerraformSetupBuilder`,
with the outcomes of the external calls passed as arguments, returning the
Go pair `(terraform.Setup, error)` (`none` = nil error). -/
def TerraformSetupBuilder (version providerSource providerVersion : String)
    (resolveProviderConfig : Except String PCSpec)
    (commonCredentialExtractor : PCSpec → Except String CredData)
    (jsonUnmarshal : CredData → Except String Creds)
    (getProvider : Option FrameworkProvider) : Setup × Option String :=
  let ps : Setup :=
    { version := version
      requirement := { source := providerSource, version := providerVersion }
      configuration := none
      frameworkProviderSet := false }
  match resolveProviderConfig with
  | Except.error e => (zeroSetup, some ("cannot resolve provider config: " ++ e))
  | Except.ok pcSpec =>
      match commonCredentialExtractor pcSpec with
      | Except.error e => (ps, some (errExtractCredentials ++ ": " ++ e))
      | Except.ok data =>
          match jsonUnmarshal data with
          | Except.error e => (ps, some (errUnmarshalCredentials ++ ": " ++ e))
          | Except.ok creds =>
              let ps := { ps with
                configuration :=
                  some (mapInsert [] update (ConfigValue.blocks [buildAuthConfig creds])) }
              match getProvider with
              | none => (ps, some "framework provider is nil")
              | some _ => ({ ps with frameworkProviderSet := true }, none)

/-! ## The generated cluster controller registration list

`internal/controller/cluster/zz_setup.go` registers, in order, the
providerconfig controller and one controller per record resource package. -/

/-- The controllers registered by `Setup`, identified by the package whose
`Setup` function is placed in the registration list. -/
inductive ControllerKind where
  | providerconfig
  | cnamerecord
  | ptrrecord
  | aaaarecordset
  | arecordset
  | mxrecordset
  | nsrecordset
  | srvrecordset
  | txtrecordset
deriving DecidableEq, Repr

/-- The registration list iterated by `Setup(mgr, o)` in `zz_setup.go`. -/
def setupRegistrations : List ControllerKind :=
  [ControllerKind.providerconfig, ControllerKind.cnamerecord, ControllerKind.ptrrecord,
   ControllerKind.aaaarecordset, ControllerKind.arecordset, ControllerKind.mxrecordset,
   ControllerKind.nsrecordset, ControllerKind.srvrecordset, ControllerKind.txtrecordset]

/-- The DNS record kinds the provider is said to manage. -/
inductive RecordKind where
  | A
  | AAAA
  | CNAME
  | MX
  | NS
  | PTR
  | SRV
  | TXT
deriving DecidableEq, Repr, Fintype

/-- The DNS record kind managed by each registered controller, read off the
controller package registered in `zz_setup.go` (`cnamerecord` manages CNAME
records, `arecordset` manages A record-sets, ...); the providerconfig
controller manages no record. -/
def recordKindOf : ControllerKind → Option RecordKind
  | ControllerKind.cnamerecord => some RecordKind.CNAME
  | ControllerKind.ptrrecord => some RecordKind.PTR
  | ControllerKind.aaaarecordset => some RecordKind.AAAA
  | ControllerKind.arecordset => some RecordKind.A
  | ControllerKind.mxrecordset => some RecordKind.MX
  | ControllerKind.nsrecordset => some RecordKind.NS
  | ControllerKind.srvrecordset => some RecordKind.SRV
  | ControllerKind.txtrecordset => some RecordKind.TXT
  | ControllerKind.providerconfig => none

/-- Whether a registered controller manages a record-set resource. -/
def managesRecordSet : ControllerKind → Bool
  | ControllerKind.aaaarecordset => true
  | ControllerKind.arecordset => true
  | ControllerKind.mxrecordset => true
  | ControllerKind.nsrecordset => true
  | ControllerKind.srvrecordset => true
  | ControllerKind.txtrecordset => true
  | _ => false

/-! ## resourceList (config package) -/

/-- upjet's `config.ExternalName`; none of its fields are consulted by
`resourceList`, so it is embedded as an empty record. -/
structure ExternalName where
  dummy : Unit := ()

/-- `resourceList` returns the list of resources that have external name
configured in the specified table: each key of the table with `"$"` appended
(`l := make([]string, len(t)); for n := range t { l[i] = n + "$"; i++ }`),
the Go map's iteration order being the list order of the embedding. -/
def resourceList (t : List (String × ExternalName)) : List String :=
  t.map (fun n => n.1 ++ "$")

/-! ## Concrete fixtures used by the witness theorems -/

def credsGss : Creds :=
  [("rfc", "3645"), ("server", "10.0.0.1"), ("realm", "EXAMPLE.COM"),
   ("username", "admin"), ("port", "53")]

def credsTsig : Creds :=
  [("rfc", "2845"), ("server", "10.0.0.1"), ("key_name", "tsig."),
   ("key_secret", "c2VjcmV0"), ("timeout", "30")]

def credsPlain : Creds :=
  [("server", "10.0.0.1"), ("transport", "tcp"), ("realm", "EXAMPLE.COM")]

def credsUnknown : Creds :=
  [("rfc", "9999"), ("server", "10.0.0.1"), ("retries", "3")]

def credsA : Creds := [("server", "10.0.0.1"), ("rfc", "9999")]

def credsB : Creds := [("rfc", "9999"), ("server", "10.0.0.1")]

def wExtractErr : PCSpec → Except String CredData := fun _ => Except.error "no secret"

def wExtractOk : PCSpec → Except String CredData := fun _ => Except.ok "raw"

def wUnmarshalErr : CredData → Except String Creds := fun _ => Except.error "bad json"

def wUnmarshalOk : CredData → Except String Creds := fun _ => Except.ok credsPlain

def extTable : List (String × ExternalName) :=
  [("dns_a_record_set", ⟨()⟩), ("dns_cname_record", ⟨()⟩)]

end DNSv2

namespace DNSv2

/-! ## Basic map lemmas -/

theorem lookup_mapInsert (m : AnyMap) (k k' : String) (v : ConfigValue) :
    mapLookup (mapInsert m k v) k' = if k' = k then some v else mapLookup m k' := by
  induction m with
  | nil =>
      by_cases h : k' = k
      · subst h; simp [mapInsert, mapLookup]
      · simp [mapInsert, mapLookup, h, Ne.symm h]
  | cons hd tl ih =>
      obtain ⟨k0, v0⟩ := hd
      by_cases h1 : k0 = k
      · subst h1
        by_cases h2 : k' = k0
        · subst h2; simp [mapInsert, mapLookup]
        · simp [mapInsert, mapLookup, h2, Ne.symm h2]
      · by_cases h2 : k' = k0
        · subst h2; simp [mapInsert, mapLookup, h1, Ne.symm h1]
        · simp [mapInsert, mapLookup, h1, Ne.symm h2, ih]

theorem lookup_some_mem_keys {m : AnyMap} {k : String} {v : ConfigValue}
    (h : mapLookup m k = some v) : k ∈ m.map Prod.fst := by
  induction m with
  | nil => simp [mapLookup] at h
  | cons hd tl ih =>
      by_cases h1 : hd.1 = k
      · simp [h1]
      · simp [mapLookup, h1] at h
        simp [ih h]

theorem keys_mapInsert (m : AnyMap) (k : String) (v : ConfigValue) :
    ((mapInsert m k v).map Prod.fst) =
      if k ∈ m.map Prod.fst then m.map Prod.fst else m.map Prod.fst ++ [k] := by
  induction m with
  | nil => simp [mapInsert]
  | cons hd tl ih =>
      obtain ⟨k0, v0⟩ := hd
      by_cases h1 : k0 = k
      · subst h1; simp [mapInsert]
      · simp only [mapInsert, h1, if_false, List.map_cons, List.mem_cons, ih]
        by_cases h2 : k ∈ tl.map Prod.fst <;> simp [h1, h2, Ne.symm h1]

theorem lookup_mergeMaps (a b : AnyMap) (k : String)
    (hb : (b.map Prod.fst).Nodup) :
    mapLookup (mergeMaps a b) k = (mapLookup b k).or (mapLookup a k) := by
  induction b generalizing a with
  | nil => simp [mergeMaps, mapLookup]
  | cons hd tl ih =>
      simp only [List.map_cons, List.nodup_cons] at hb
      have step : mergeMaps a (hd :: tl) = mergeMaps (mapInsert a hd.1 hd.2) tl := by
        simp [mergeMaps]
      rw [step, ih _ hb.2]
      by_cases hk : hd.1 = k
      · subst hk
        cases htl : mapLookup tl hd.1 with
        | some v => exact absurd (lookup_some_mem_keys htl) hb.1
        | none => simp [mapLookup, htl, lookup_mapInsert]
      · simp [mapLookup, lookup_mapInsert, hk, Ne.symm hk]

theorem lookup_setIfPresent (creds : Creds) (config : AnyMap) (k k' : String) :
    mapLookup (setIfPresent creds config k) k' =
      if k' = k then (Option.map ConfigValue.str (credLookup creds k)).or (mapLookup config k')
      else mapLookup config k' := by
  cases h : credLookup creds k with
  | some v => by_cases hk : k' = k <;> simp [setIfPresent, h, lookup_mapInsert, hk]
  | none => by_cases hk : k' = k <;> simp [setIfPresent, h, hk]

/-! ## Lookup characterizations of the three sub-builders -/

theorem lookup_buildOptionalConfig (creds : Creds) (k : String) :
    mapLookup (buildOptionalConfig creds) k =
      if k = keyPort ∨ k = keyRetries ∨ k = keyTimeout ∨ k = keyTransport
      then Option.map ConfigValue.str (credLookup creds k) else none := by
  by_cases h1 : k = keyPort <;> by_cases h2 : k = keyRetries <;>
    by_cases h3 : k = keyTimeout <;> by_cases h4 : k = keyTransport <;>
      simp_all [buildOptionalConfig, lookup_setIfPresent, mapLookup,
        keyPort, keyRetries, keyTimeout, keyTransport]

theorem lookup_buildSecretBasedTransactionAuthConfig (creds : Creds) (k : String) :
    mapLookup (buildSecretBasedTransactionAuthConfig creds) k =
      if k = transcationKeyName ∨ k = transactionKeyAlgorithm ∨ k = transactionKeySecret
      then Option.map ConfigValue.str (credLookup creds k) else none := by
  by_cases h1 : k = transcationKeyName <;> by_cases h2 : k = transactionKeyAlgorithm <;>
    by_cases h3 : k = transactionKeySecret <;>
      simp_all [buildSecretBasedTransactionAuthConfig, lookup_setIfPresent, mapLookup,
        transcationKeyName, transactionKeyAlgorithm, transactionKeySecret]

theorem lookup_buildGSSTSIGAuthConfig (creds : Creds) (k : String) :
    mapLookup (buildGSSTSIGAuthConfig creds) k =
      if k = keyRealm ∨ k = keyUsername ∨ k = keyPassword ∨ k = keyTab
      then Option.map ConfigValue.str (credLookup creds k) else none := by
  by_cases h1 : k = keyRealm <;> by_cases h2 : k = keyUsername <;>
    by_cases h3 : k = keyPassword <;> by_cases h4 : k = keyTab <;>
      simp_all [buildGSSTSIGAuthConfig, lookup_setIfPresent, mapLookup,
        keyRealm, keyUsername, keyPassword, keyTab]

theorem keys_buildOptionalConfig_nodup (creds : Creds) :
    ((buildOptionalConfig creds).map Prod.fst).Nodup := by
  cases h1 : credLookup creds "port" <;> cases h2 : credLookup creds "retries" <;>
    cases h3 : credLookup creds "timeout" <;> cases h4 : credLookup creds "transport" <;>
      simp [buildOptionalConfig, setIfPresent, h1, h2, h3, h4, mapInsert,
        keyPort, keyRetries, keyTimeout, keyTransport]

theorem keys_buildSecretBasedTransactionAuthConfig_nodup (creds : Creds) :
    ((buildSecretBasedTransactionAuthConfig creds).map Prod.fst).Nodup := by
  cases h1 : credLookup creds "key_name" <;>
    cases h2 : credLookup creds "key_algorithm" <;>
      cases h3 : credLookup creds "key_secret" <;>
        simp [buildSecretBasedTransactionAuthConfig, setIfPresent, h1, h2, h3, mapInsert,
          transcationKeyName, transactionKeyAlgorithm, transactionKeySecret]

/-! ## Mode-by-mode shape of buildAuthConfig

The Go `switch` on `creds["rfc"]` has four possible outcomes: the key is
absent, it is "3645" (GSS-TSIG), it is "2845" (secret-key transaction auth),
or it holds any other value (silently ignored). The next four lemmas unfold
`buildAuthConfig` in each mode. -/

theorem buildAuthConfig_default (creds : Creds) (h : credLookup creds keyRFC = none) :
    buildAuthConfig creds =
      mergeMaps (setIfPresent creds [] keyServer) (buildOptionalConfig creds) := by
  simp [buildAuthConfig, h]

theorem buildAuthConfig_gsstsig (creds : Creds)
    (h : credLookup creds keyRFC = some gsstsigRFC) :
    buildAuthConfig creds =
      mergeMaps
        (mapInsert (setIfPresent creds [] keyServer) gssapi
          (ConfigValue.blocks [buildGSSTSIGAuthConfig creds]))
        (buildOptionalConfig creds) := by
  simp [buildAuthConfig, h]

theorem buildAuthConfig_keyBased (creds : Creds)
    (h : credLookup creds keyRFC = some keyBasedTransactionRFC) :
    buildAuthConfig creds =
      mergeMaps
        (mergeMaps (setIfPresent creds [] keyServer)
          (buildSecretBasedTransactionAuthConfig creds))
        (buildOptionalConfig creds) := by
  simp [buildAuthConfig, h, gsstsigRFC, keyBasedTransactionRFC]

theorem buildAuthConfig_unknown (creds : Creds) (r : String)
    (h : credLookup creds keyRFC = some r)
    (hr1 : r ≠ gsstsigRFC) (hr2 : r ≠ keyBasedTransactionRFC) :
    buildAuthConfig creds =
      mergeMaps (setIfPresent creds [] keyServer) (buildOptionalConfig creds) := by
  simp [buildAuthConfig, h, hr1, hr2]

/-! ## Lookup characterization of buildAuthConfig, mode by mode -/

theorem lookup_buildAuthConfig_default (creds : Creds) (k : String)
    (h : credLookup creds keyRFC = none) :
    mapLookup (buildAuthConfig creds) k =
      if k = keyPort ∨ k = keyRetries ∨ k = keyTimeout ∨ k = keyTransport
      then Option.map ConfigValue.str (credLookup creds k)
      else if k = keyServer then Option.map ConfigValue.str (credLookup creds keyServer)
      else none := by
  rw [buildAuthConfig_default creds h,
    lookup_mergeMaps _ _ _ (keys_buildOptionalConfig_nodup creds),
    lookup_buildOptionalConfig, lookup_setIfPresent]
  by_cases hopt : k = keyPort ∨ k = keyRetries ∨ k = keyTimeout ∨ k = keyTransport
  · rcases hopt with hk|hk|hk|hk <;> subst hk <;>
      simp [mapLookup, keyPort, keyRetries, keyTimeout, keyTransport, keyServer]
  · by_cases hs : k = keyServer
    · subst hs; simp [mapLookup, hopt]
    · simp [mapLookup, hopt, hs]

theorem lookup_buildAuthConfig_gsstsig (creds : Creds) (k : String)
    (h : credLookup creds keyRFC = some gsstsigRFC) :
    mapLookup (buildAuthConfig creds) k =
      if k = keyPort ∨ k = keyRetries ∨ k = keyTimeout ∨ k = keyTransport
      then Option.map ConfigValue.str (credLookup creds k)
      else if k = gssapi then some (ConfigValue.blocks [buildGSSTSIGAuthConfig creds])
      else if k = keyServer then Option.map ConfigValue.str (credLookup creds keyServer)
      else none := by
  rw [buildAuthConfig_gsstsig creds h,
    lookup_mergeMaps _ _ _ (keys_buildOptionalConfig_nodup creds),
    lookup_buildOptionalConfig, lookup_mapInsert, lookup_setIfPresent]
  by_cases hopt : k = keyPort ∨ k = keyRetries ∨ k = keyTimeout ∨ k = keyTransport
  · rcases hopt with hk|hk|hk|hk <;> subst hk <;>
      simp [mapLookup, keyPort, keyRetries, keyTimeout, keyTransport, keyServer, gssapi]
  · by_cases hg : k = gssapi
    · subst hg
      simp [mapLookup, gssapi, keyPort, keyRetries, keyTimeout, keyTransport, keyServer]
    · by_cases hs : k = keyServer
      · subst hs; simp [mapLookup, hopt, hg]
      · simp [mapLookup, hopt, hg, hs]

theorem lookup_buildAuthConfig_keyBased (creds : Creds) (k : String)
    (h : credLookup creds keyRFC = some keyBasedTransactionRFC) :
    mapLookup (buildAuthConfig creds) k =
      if k = keyPort ∨ k = keyRetries ∨ k = keyTimeout ∨ k = keyTransport
      then Option.map ConfigValue.str (credLookup creds k)
      else if k = transcationKeyName ∨ k = transactionKeyAlgorithm ∨ k = transactionKeySecret
      then Option.map ConfigValue.str (credLookup creds k)
      else if k = keyServer then Option.map ConfigValue.str (credLookup creds keyServer)
      else none := by
  rw [buildAuthConfig_keyBased creds h,
    lookup_mergeMaps _ _ _ (keys_buildOptionalConfig_nodup creds),
    lookup_buildOptionalConfig,
    lookup_mergeMaps _ _ _ (keys_buildSecretBasedTransactionAuthConfig_nodup creds),
    lookup_buildSecretBasedTransactionAuthConfig, lookup_setIfPresent]
  by_cases hopt : k = keyPort ∨ k = keyRetries ∨ k = keyTimeout ∨ k = keyTransport
  · rcases hopt with hk|hk|hk|hk <;> subst hk <;>
      simp [mapLookup, keyPort, keyRetries, keyTimeout, keyTransport, keyServer,
        transcationKeyName, transactionKeyAlgorithm, transactionKeySecret]
  · by_cases htx : k = transcationKeyName ∨ k = transactionKeyAlgorithm ∨ k = transactionKeySecret
    · rcases htx with hk|hk|hk <;> subst hk <;>
        simp [mapLookup, transcationKeyName, transactionKeyAlgorithm,
          transactionKeySecret, keyServer, keyPort, keyRetries, keyTimeout, keyTransport]
    · by_cases hs : k = keyServer
      · subst hs; simp [mapLookup, hopt, htx]
      · simp [mapLookup, hopt, htx, hs]

theorem lookup_buildAuthConfig_unknown (creds : Creds) (k : String) (r : String)
    (h : credLookup creds keyRFC = some r)
    (hr1 : r ≠ gsstsigRFC) (hr2 : r ≠ keyBasedTransactionRFC) :
    mapLookup (buildAuthConfig creds) k =
      if k = keyPort ∨ k = keyRetries ∨ k = keyTimeout ∨ k = keyTransport
      then Option.map ConfigValue.str (credLookup creds k)
      else if k = keyServer then Option.map ConfigValue.str (credLookup creds keyServer)
      else none := by
  rw [buildAuthConfig_unknown creds r h hr1 hr2,
    lookup_mergeMaps _ _ _ (keys_buildOptionalConfig_nodup creds),
    lookup_buildOptionalConfig, lookup_setIfPresent]
  by_cases hopt : k = keyPort ∨ k = keyRetries ∨ k = keyTimeout ∨ k = keyTransport
  · rcases hopt with hk|hk|hk|hk <;> subst hk <;>
      simp [mapLookup, keyPort, keyRetries, keyTimeout, keyTransport, keyServer]
  · by_cases hs : k = keyServer
    · subst hs; simp [mapLookup, hopt]
    · simp [mapLookup, hopt, hs]

/-! ## Congruence: the builders depend only on the content of the credential
map (what `credLookup` returns), not on its representation. -/

theorem setIfPresent_congr (c1 c2 : Creds) (m : AnyMap) (k : String)
    (h : credLookup c1 k = credLookup c2 k) :
    setIfPresent c1 m k = setIfPresent c2 m k := by
  simp [setIfPresent, h]

theorem buildGSSTSIGAuthConfig_congr (c1 c2 : Creds)
    (h : ∀ k, k ≠ keyRFC → credLookup c1 k = credLookup c2 k) :
    buildGSSTSIGAuthConfig c1 = buildGSSTSIGAuthConfig c2 := by
  simp only [buildGSSTSIGAuthConfig, setIfPresent,
    h keyRealm (by decide), h keyUsername (by decide),
    h keyPassword (by decide), h keyTab (by decide)]

theorem buildSecretBasedTransactionAuthConfig_congr (c1 c2 : Creds)
    (h : ∀ k, k ≠ keyRFC → credLookup c1 k = credLookup c2 k) :
    buildSecretBasedTransactionAuthConfig c1 = buildSecretBasedTransactionAuthConfig c2 := by
  simp only [buildSecretBasedTransactionAuthConfig, setIfPresent,
    h transcationKeyName (by decide), h transactionKeyAlgorithm (by decide),
    h transactionKeySecret (by decide)]

theorem buildOptionalConfig_congr (c1 c2 : Creds)
    (h : ∀ k, k ≠ keyRFC → credLookup c1 k = credLookup c2 k) :
    buildOptionalConfig c1 = buildOptionalConfig c2 := by
  simp only [buildOptionalConfig, setIfPresent,
    h keyPort (by decide), h keyRetries (by decide),
    h keyTimeout (by decide), h keyTransport (by decide)]

theorem credLookup_credErase (creds : Creds) (k0 k : String) :
    credLookup (credErase creds k0) k = if k = k0 then none else credLookup creds k := by
  simp only [credErase]
  induction creds with
  | nil => by_cases hk : k = k0 <;> simp [credLookup, hk]
  | cons hd tl ih =>
      simp only [ne_eq, decide_not] at ih
      obtain ⟨a, b⟩ := hd
      by_cases ha : a = k0
      · subst ha
        by_cases hk : k = a
        · subst hk; simp [credLookup, ih]
        · simp [credLookup, ih, hk, Ne.symm hk]
      · by_cases hk2 : a = k
        · subst hk2
          simp [credLookup, ha, ih]
        · simp [credLookup, ha, hk2, ih]

end DNSv2

namespace DNSv2

/-! ## Claim theorems -/

/-- C1: for every credential map with `creds["rfc"] = "3645"`, `buildAuthConfig`
binds `"gssapi"` to the one-element list whose sole element is the GSS-TSIG
block, and that block binds each of `"realm"`, `"username"`, `"password"`,
`"keytab"` exactly when the field is present in `creds` (to its value there)
and binds nothing else. -/
theorem claim1_gsstsig_nested (creds : Creds)
    (h : credLookup creds keyRFC = some gsstsigRFC) :
    mapLookup (buildAuthConfig creds) gssapi
        = some (ConfigValue.blocks [buildGSSTSIGAuthConfig creds]) ∧
    ∀ k : String,
      mapLookup (buildGSSTSIGAuthConfig creds) k =
        if k = keyRealm ∨ k = keyUsername ∨ k = keyPassword ∨ k = keyTab
        then Option.map ConfigValue.str (credLookup creds k)
        else none := by
  refine ⟨?_, fun k => lookup_buildGSSTSIGAuthConfig creds k⟩
  rw [lookup_buildAuthConfig_gsstsig creds gssapi h]
  simp [gssapi, keyPort, keyRetries, keyTimeout, keyTransport]

theorem claim1_witness :
    credLookup credsGss keyRFC = some gsstsigRFC ∧
    (mapLookup (buildAuthConfig credsGss) gssapi
        = some (ConfigValue.blocks [buildGSSTSIGAuthConfig credsGss]) ∧
     ∀ k : String,
      mapLookup (buildGSSTSIGAuthConfig credsGss) k =
        if k = keyRealm ∨ k = keyUsername ∨ k = keyPassword ∨ k = keyTab
        then Option.map ConfigValue.str (credLookup credsGss k)
        else none) :=
  ⟨rfl, claim1_gsstsig_nested credsGss rfl⟩

/-- C2: for every credential map with `creds["rfc"] = "2845"`, the top level of
`buildAuthConfig creds` binds each of `"key_name"`, `"key_algorithm"`,
`"key_secret"` exactly when present in `creds` (to its value there), and does
not contain the key `"gssapi"`. -/
theorem claim2_keyBased_top_level (creds : Creds)
    (h : credLookup creds keyRFC = some keyBasedTransactionRFC) :
    (∀ k : String,
      (k = transcationKeyName ∨ k = transactionKeyAlgorithm ∨ k = transactionKeySecret) →
        mapLookup (buildAuthConfig creds) k = Option.map ConfigValue.str (credLookup creds k)) ∧
    mapLookup (buildAuthConfig creds) gssapi = none := by
  constructor
  · intro k hk
    rw [lookup_buildAuthConfig_keyBased creds k h]
    rcases hk with h1|h1|h1 <;> subst h1 <;>
      simp [transcationKeyName, transactionKeyAlgorithm, transactionKeySecret,
        keyPort, keyRetries, keyTimeout, keyTransport]
  · rw [lookup_buildAuthConfig_keyBased creds gssapi h]
    simp [gssapi, keyPort, keyRetries, keyTimeout, keyTransport, transcationKeyName,
      transactionKeyAlgorithm, transactionKeySecret, keyServer]

theorem claim2_witness :
    credLookup credsTsig keyRFC = some keyBasedTransactionRFC ∧
    ((∀ k : String,
      (k = transcationKeyName ∨ k = transactionKeyAlgorithm ∨ k = transactionKeySecret) →
        mapLookup (buildAuthConfig credsTsig) k
          = Option.map ConfigValue.str (credLookup credsTsig k)) ∧
     mapLookup (buildAuthConfig credsTsig) gssapi = none) :=
  ⟨rfl, claim2_keyBased_top_level credsTsig rfl⟩

/-- C3: for every credential map without an `"rfc"` key (default mode),
`buildAuthConfig creds` binds `"server"` exactly when present in `creds`, binds
the optional fields exactly when present, has no `"gssapi"` key, and binds none
of the transaction-auth or GSS-TSIG fields. -/
theorem claim3_default_mode (creds : Creds) (h : credLookup creds keyRFC = none) :
    mapLookup (buildAuthConfig creds) keyServer
        = Option.map ConfigValue.str (credLookup creds keyServer) ∧
    (∀ k : String,
      (k = keyPort ∨ k = keyRetries ∨ k = keyTimeout ∨ k = keyTransport) →
        mapLookup (buildAuthConfig creds) k = Option.map ConfigValue.str (credLookup creds k)) ∧
    mapLookup (buildAuthConfig creds) gssapi = none ∧
    (∀ k : String,
      (k = transcationKeyName ∨ k = transactionKeyAlgorithm ∨ k = transactionKeySecret ∨
       k = keyRealm ∨ k = keyUsername ∨ k = keyPassword ∨ k = keyTab) →
        mapLookup (buildAuthConfig creds) k = none) := by
  refine ⟨?_, fun k hk => ?_, ?_, fun k hk => ?_⟩
  · rw [lookup_buildAuthConfig_default creds keyServer h]
    simp [keyServer, keyPort, keyRetries, keyTimeout, keyTransport]
  · rw [lookup_buildAuthConfig_default creds k h]
    simp [hk]
  · rw [lookup_buildAuthConfig_default creds gssapi h]
    simp [gssapi, keyServer, keyPort, keyRetries, keyTimeout, keyTransport]
  · rw [lookup_buildAuthConfig_default creds k h]
    rcases hk with h1|h1|h1|h1|h1|h1|h1 <;> subst h1 <;>
      simp [transcationKeyName, transactionKeyAlgorithm, transactionKeySecret, keyRealm,
        keyUsername, keyPassword, keyTab, keyServer, keyPort, keyRetries, keyTimeout,
        keyTransport]

theorem claim3_witness :
    credLookup credsPlain keyRFC = none ∧
    (mapLookup (buildAuthConfig credsPlain) keyServer
        = Option.map ConfigValue.str (credLookup credsPlain keyServer) ∧
     (∀ k : String,
      (k = keyPort ∨ k = keyRetries ∨ k = keyTimeout ∨ k = keyTransport) →
        mapLookup (buildAuthConfig credsPlain) k
          = Option.map ConfigValue.str (credLookup credsPlain k)) ∧
     mapLookup (buildAuthConfig credsPlain) gssapi = none ∧
     (∀ k : String,
      (k = transcationKeyName ∨ k = transactionKeyAlgorithm ∨ k = transactionKeySecret ∨
       k = keyRealm ∨ k = keyUsername ∨ k = keyPassword ∨ k = keyTab) →
        mapLookup (buildAuthConfig credsPlain) k = none)) :=
  ⟨rfl, claim3_default_mode credsPlain rfl⟩

/-- C4: in every mode (any value of `creds["rfc"]`, or none), each of the four
optional fields `"port"`, `"retries"`, `"timeout"`, `"transport"` appears at
the top level of `buildAuthConfig creds` exactly when present in `creds`,
bound to its value there. -/
theorem claim4_optional_fields (creds : Creds) (k : String)
    (hk : k = keyPort ∨ k = keyRetries ∨ k = keyTimeout ∨ k = keyTransport) :
    mapLookup (buildAuthConfig creds) k = Option.map ConfigValue.str (credLookup creds k) := by
  rcases hrfc : credLookup creds keyRFC with _ | r
  · rw [lookup_buildAuthConfig_default creds k hrfc]
    simp [hk]
  · by_cases h1 : r = gsstsigRFC
    · subst h1
      rw [lookup_buildAuthConfig_gsstsig creds k hrfc]
      simp [hk]
    · by_cases h2 : r = keyBasedTransactionRFC
      · subst h2
        rw [lookup_buildAuthConfig_keyBased creds k hrfc]
        simp [hk]
      · rw [lookup_buildAuthConfig_unknown creds k r hrfc h1 h2]
        simp [hk]

theorem claim4_witness :
    (credsGss.map Prod.fst ≠ [] ) ∧
    (keyPort = keyPort ∨ keyPort = keyRetries ∨ keyPort = keyTimeout ∨ keyPort = keyTransport) ∧
    mapLookup (buildAuthConfig credsGss) keyPort
      = Option.map ConfigValue.str (credLookup credsGss keyPort) ∧
    (keyTimeout = keyPort ∨ keyTimeout = keyRetries ∨ keyTimeout = keyTimeout ∨
      keyTimeout = keyTransport) ∧
    mapLookup (buildAuthConfig credsTsig) keyTimeout
      = Option.map ConfigValue.str (credLookup credsTsig keyTimeout) :=
  ⟨by decide, Or.inl rfl, claim4_optional_fields credsGss keyPort (Or.inl rfl),
   Or.inr (Or.inr (Or.inl rfl)),
   claim4_optional_fields credsTsig keyTimeout (Or.inr (Or.inr (Or.inl rfl)))⟩

end DNSv2

namespace DNSv2

/-- C5: whenever provider-config resolution, credential extraction and JSON
unmarshaling all succeed, the `Configuration` of the returned setup is exactly
the one-entry map binding `"update"` to the one-element list holding
`buildAuthConfig` of the unmarshaled credentials — whatever the framework
provider outcome is. -/
theorem claim5_configuration_single_update
    (version providerSource providerVersion : String) (pcSpec : PCSpec)
    (extractor : PCSpec → Except String CredData)
    (unmarshal : CredData → Except String Creds)
    (fw : Option FrameworkProvider) (data : CredData) (creds : Creds)
    (hx : extractor pcSpec = Except.ok data)
    (hu : unmarshal data = Except.ok creds) :
    (TerraformSetupBuilder version providerSource providerVersion
        (Except.ok pcSpec) extractor unmarshal fw).1.configuration
      = some [(update, ConfigValue.blocks [buildAuthConfig creds])] := by
  simp only [TerraformSetupBuilder, hx, hu]
  cases fw <;> simp [mapInsert]

theorem claim5_witness :
    wExtractOk () = Except.ok "raw" ∧
    wUnmarshalOk "raw" = Except.ok credsPlain ∧
    (TerraformSetupBuilder "v0" "dana-team/dns-v2" "1.0"
        (Except.ok ()) wExtractOk wUnmarshalOk (some ())).1.configuration
      = some [(update, ConfigValue.blocks [buildAuthConfig credsPlain])] :=
  ⟨rfl, rfl,
   claim5_configuration_single_update "v0" "dana-team/dns-v2" "1.0" ()
     wExtractOk wUnmarshalOk (some ()) "raw" credsPlain rfl rfl⟩

/-- C6: `buildAuthConfig` is deterministic and depends only on the content of
the credential map: two credential maps giving the same value (or absence) for
every key yield the same configuration map.  (The embedding is a pure
function over the credential map — every access in the source is a read
`creds[k]` — so invocation order or external state cannot influence the
result, and the input map is not modified.) -/
theorem claim6_pure_deterministic (c1 c2 : Creds)
    (h : ∀ k, credLookup c1 k = credLookup c2 k) :
    buildAuthConfig c1 = buildAuthConfig c2 := by
  have hne : ∀ k, k ≠ keyRFC → credLookup c1 k = credLookup c2 k := fun k _ => h k
  simp only [buildAuthConfig, setIfPresent, h keyServer, h keyRFC,
    buildGSSTSIGAuthConfig_congr c1 c2 hne,
    buildSecretBasedTransactionAuthConfig_congr c1 c2 hne,
    buildOptionalConfig_congr c1 c2 hne]

theorem claim6_witness :
    (∀ k, credLookup credsA k = credLookup credsB k) ∧
    buildAuthConfig credsA = buildAuthConfig credsB := by
  have h : ∀ k, credLookup credsA k = credLookup credsB k := by
    intro k
    by_cases h1 : "server" = k <;> by_cases h2 : "rfc" = k
    · exact absurd (h1.trans h2.symm) (by decide)
    · simp [credsA, credsB, credLookup, h1, h2]
    · simp [credsA, credsB, credLookup, h1, h2]
    · simp [credsA, credsB, credLookup, h1, h2]
  exact ⟨h, claim6_pure_deterministic credsA credsB h⟩

/-- C7: the registration list passed to the manager by `Setup` in
`zz_setup.go` contains, for each DNS record kind A, AAAA, CNAME, MX, NS, PTR,
SRV and TXT, a controller managing that kind, and contains record-set
controllers. -/
theorem claim7_all_kinds_registered :
    (∀ rk : RecordKind, ∃ c ∈ setupRegistrations, recordKindOf c = some rk) ∧
    (∃ c ∈ setupRegistrations, managesRecordSet c = true) := by
  decide

/-- C8: when `creds["rfc"]` is present but neither "3645" nor "2845",
`buildAuthConfig` silently falls back to the default mode: it returns exactly
the configuration it would return for the same credentials with the `"rfc"`
key removed.  (The function has no error path: it totally returns a map.) -/
theorem claim8_unknown_rfc_fallback (creds : Creds) (r : String)
    (h : credLookup creds keyRFC = some r)
    (hr1 : r ≠ gsstsigRFC) (hr2 : r ≠ keyBasedTransactionRFC) :
    buildAuthConfig creds = buildAuthConfig (credErase creds keyRFC) := by
  have he : credLookup (credErase creds keyRFC) keyRFC = none := by
    simp [credLookup_credErase]
  have hne : ∀ k, k ≠ keyRFC → credLookup creds k = credLookup (credErase creds keyRFC) k := by
    intro k hk
    rw [credLookup_credErase]
    simp [hk]
  rw [buildAuthConfig_unknown creds r h hr1 hr2, buildAuthConfig_default _ he,
    setIfPresent_congr creds (credErase creds keyRFC) [] keyServer (hne _ (by decide)),
    buildOptionalConfig_congr creds (credErase creds keyRFC) hne]

theorem claim8_witness :
    credLookup credsUnknown keyRFC = some "9999" ∧
    ("9999" : String) ≠ gsstsigRFC ∧ ("9999" : String) ≠ keyBasedTransactionRFC ∧
    buildAuthConfig credsUnknown = buildAuthConfig (credErase credsUnknown keyRFC) :=
  ⟨rfl, by decide, by decide,
   claim8_unknown_rfc_fallback credsUnknown "9999" rfl (by decide) (by decide)⟩

/-- C9: the setup function reports errors asymmetrically: a provider-config
resolution failure returns the zero-value setup with the error, while a
credential-extraction or JSON-unmarshaling failure returns a setup whose
`Version` and `Requirement` are already populated from the builder's
arguments, with the error. -/
theorem claim9_error_asymmetry
    (version providerSource providerVersion : String) (pcSpec : PCSpec)
    (extractor : PCSpec → Except String CredData)
    (unmarshal : CredData → Except String Creds)
    (fw : Option FrameworkProvider) :
    (∀ e : String,
      TerraformSetupBuilder version providerSource providerVersion
          (Except.error e) extractor unmarshal fw
        = (zeroSetup, some ("cannot resolve provider config: " ++ e))) ∧
    (∀ e : String, extractor pcSpec = Except.error e →
      (TerraformSetupBuilder version providerSource providerVersion
          (Except.ok pcSpec) extractor unmarshal fw).1.version = version ∧
      (TerraformSetupBuilder version providerSource providerVersion
          (Except.ok pcSpec) extractor unmarshal fw).1.requirement
        = { source := providerSource, version := providerVersion } ∧
      (TerraformSetupBuilder version providerSource providerVersion
          (Except.ok pcSpec) extractor unmarshal fw).2
        = some (errExtractCredentials ++ ": " ++ e)) ∧
    (∀ (data : CredData) (e : String),
      extractor pcSpec = Except.ok data → unmarshal data = Except.error e →
      (TerraformSetupBuilder version providerSource providerVersion
          (Except.ok pcSpec) extractor unmarshal fw).1.version = version ∧
      (TerraformSetupBuilder version providerSource providerVersion
          (Except.ok pcSpec) extractor unmarshal fw).1.requirement
        = { source := providerSource, version := providerVersion } ∧
      (TerraformSetupBuilder version providerSource providerVersion
          (Except.ok pcSpec) extractor unmarshal fw).2
        = some (errUnmarshalCredentials ++ ": " ++ e)) := by
  refine ⟨fun e => ?_, fun e hx => ?_, fun data e hx hu => ?_⟩
  · simp [TerraformSetupBuilder]
  · simp [TerraformSetupBuilder, hx]
  · simp [TerraformSetupBuilder, hx, hu]

theorem claim9_witness :
    (TerraformSetupBuilder "v0" "dana-team/dns-v2" "1.0"
        (Except.error "boom") wExtractErr wUnmarshalOk none
      = (zeroSetup, some ("cannot resolve provider config: " ++ "boom"))) ∧
    (wExtractErr () = Except.error "no secret" ∧
     (TerraformSetupBuilder "v0" "dana-team/dns-v2" "1.0"
        (Except.ok ()) wExtractErr wUnmarshalOk none).1.version = "v0" ∧
     (TerraformSetupBuilder "v0" "dana-team/dns-v2" "1.0"
        (Except.ok ()) wExtractErr wUnmarshalOk none).1.requirement
       = { source := "dana-team/dns-v2", version := "1.0" } ∧
     (TerraformSetupBuilder "v0" "dana-team/dns-v2" "1.0"
        (Except.ok ()) wExtractErr wUnmarshalOk none).2
       = some (errExtractCredentials ++ ": " ++ "no secret")) ∧
    (wExtractOk () = Except.ok "raw" ∧ wUnmarshalErr "raw" = Except.error "bad json" ∧
     (TerraformSetupBuilder "v0" "dana-team/dns-v2" "1.0"
        (Except.ok ()) wExtractOk wUnmarshalErr none).1.version = "v0" ∧
     (TerraformSetupBuilder "v0" "dana-team/dns-v2" "1.0"
        (Except.ok ()) wExtractOk wUnmarshalErr none).1.requirement
       = { source := "dana-team/dns-v2", version := "1.0" } ∧
     (TerraformSetupBuilder "v0" "dana-team/dns-v2" "1.0"
        (Except.ok ()) wExtractOk wUnmarshalErr none).2
       = some (errUnmarshalCredentials ++ ": " ++ "bad json")) :=
  ⟨(claim9_error_asymmetry "v0" "dana-team/dns-v2" "1.0" () wExtractErr wUnmarshalOk none).1
      "boom",
   ⟨rfl, (claim9_error_asymmetry "v0" "dana-team/dns-v2" "1.0" ()
      wExtractErr wUnmarshalOk none).2.1 "no secret" rfl⟩,
   ⟨rfl, rfl, (claim9_error_asymmetry "v0" "dana-team/dns-v2" "1.0" ()
      wExtractOk wUnmarshalErr none).2.2 "raw" "bad json" rfl rfl⟩⟩

/-- C10: `resourceList` returns one element per table entry: its length equals
the table's size, the element at each index is the key at that index with
`"$"` appended, and each suffixed key occurs in the result exactly as often as
the key occurs in the table. -/
theorem claim10_resourceList (t : List (String × ExternalName)) :
    (resourceList t).length = t.length ∧
    (∀ key : String, (resourceList t).count (key ++ "$") = (t.map Prod.fst).count key) ∧
    (∀ (i : Nat) (hi : i < (resourceList t).length) (ht : i < t.length),
      (resourceList t).get ⟨i, hi⟩ = (t.get ⟨i, ht⟩).1 ++ "$") := by
  have hmap : resourceList t = (t.map Prod.fst).map (fun s => s ++ "$") := by
    rw [resourceList, List.map_map]
    rfl
  have hinj : Function.Injective (fun s : String => s ++ "$") := by
    intro a b hab
    have hd := congrArg String.data hab
    simp only [String.data_append] at hd
    exact String.ext (List.append_left_injective "$".data hd)
  refine ⟨by simp [resourceList], fun key => ?_, fun i hi ht => ?_⟩
  · rw [hmap]
    exact List.count_map_of_injective _ _ hinj key
  · simp [resourceList, List.get_eq_getElem, List.getElem_map]

theorem claim10_witness :
    (resourceList extTable).length = extTable.length ∧
    (resourceList extTable).count ("dns_a_record_set" ++ "$")
      = (extTable.map Prod.fst).count "dns_a_record_set" ∧
    (0 : Nat) < (resourceList extTable).length ∧ (0 : Nat) < extTable.length ∧
    (resourceList extTable).get ⟨0, by decide⟩ = (extTable.get ⟨0, by decide⟩).1 ++ "$" :=
  ⟨(claim10_resourceList extTable).1,
   (claim10_resourceList extTable).2.1 "dns_a_record_set",
   by decide, by decide,
   (claim10_resourceList extTable).2.2 0 (by decide) (by decide)⟩

end DNSv2
